import Mathlib

/-
PhysioBridge verification development.

Shallow embedding of the core accounting, clock-synchronization, outlet
registry, ping-pong probe, Polar JSON translator and mirror stop-scan of the
PhysioBridge repository, together with theorems settling the frozen claims
about them.

Modelling conventions:
  - Python numbers (ints and floats) are modelled as exact rationals; float
    rounding is idealized away.  Python int values are JVal.jint, floats are
    JVal.jnum, and bool is a subtype of int as in Python (numeric coercions
    accept jbool).
  - A Python JSON object is an association list of string keys; dict.get
    yields an Option, with JSON null mapped to none (Python j.get returns
    None in both cases).
  - Numeric strings are not modelled as coercible to float (Python
    float("1") would succeed; no packet in the specified protocol carries
    numeric strings).
  - Mutable objects become explicit state records threaded through the
    functions; LSL push calls become an explicit event list.
-/

namespace PhysioBridge

/-- A JSON value as produced by Python json.loads. -/
inductive JVal where
  | jint (z : ℤ)
  | jnum (q : ℚ)
  | jstr (s : String)
  | jbool (b : Bool)
  | jarr (xs : List JVal)
  | jnull
deriving Repr

/-- A JSON object: ordered association list of fields. -/
abbrev Json := List (String × JVal)

/-- Python dict.get: first binding wins; an explicit JSON null behaves like a
missing key (both give Python None). -/
def pyGet (j : Json) (k : String) : Option JVal :=
  match j.find? (fun p => p.1 == k) with
  | some (_, JVal.jnull) => none
  | some (_, v) => some v
  | none => none

/-- Python truthiness of a JSON value. -/
def pyTruthy : JVal → Bool
  | .jint z => z != 0
  | .jnum q => q != 0
  | .jstr s => s != ""
  | .jbool b => b
  | .jarr xs => !xs.isEmpty
  | .jnull => false

/-- Python `a or b` on possibly-missing values: the first truthy operand,
else the second operand. -/
def pyOrV (a b : Option JVal) : Option JVal :=
  match a with
  | some v => if pyTruthy v then some v else b
  | none => b

/-- Python str() rendering, used where the source calls str on a field. -/
def pyStr : JVal → String
  | .jstr s => s
  | .jint z => toString z
  | .jnum q => toString q
  | .jbool b => if b then "True" else "False"
  | .jarr _ => "[...]"
  | .jnull => "None"

/-- Python isinstance(x, int) coercion (bool is a subclass of int). -/
def asPyInt : Option JVal → Option ℤ
  | some (JVal.jint z) => some z
  | some (JVal.jbool b) => some (if b then 1 else 0)
  | _ => none

/-- Python float(x) on a JSON value; none models a raised exception. -/
def pyFloat : JVal → Option ℚ
  | .jint z => some (z : ℚ)
  | .jnum q => some q
  | .jbool b => some (if b then 1 else 0)
  | _ => none

namespace JsonGuard

/-- Embedding of json_guard.f: float(x) if isinstance(x, (int, float)) else
None. -/
def f : Option JVal → Option ℚ
  | some (JVal.jint z) => some (z : ℚ)
  | some (JVal.jnum q) => some q
  | some (JVal.jbool b) => some (if b then 1 else 0)
  | _ => none

/-- Coerce one row of ch cells with float(), none when any cell raises. -/
def rowVec : List JVal → Option (List ℚ)
  | [] => some []
  | x :: xs =>
    match pyFloat x, rowVec xs with
    | some q, some qs => some (q :: qs)
    | _, _ => none

/-- Embedding of json_guard.rows_as_float: keep rows that are lists of
length at least ch, coercing the first ch cells to float and skipping rows
where the coercion raises. -/
def rows_as_float (mat : Option JVal) (ch : ℤ) : List (List ℚ) :=
  match mat with
  | some (JVal.jarr rows) =>
    if ch ≤ 0 then []
    else
      rows.filterMap (fun row =>
        match row with
        | JVal.jarr cells =>
          if ch ≤ (cells.length : ℤ) then rowVec (cells.take ch.toNat) else none
        | _ => none)
  | _ => []

end JsonGuard

/-! Association-list dictionaries keyed by (device, type). -/

/-- Metrics key: (device, type). -/
abbrev Key := String × String

/-- Dict lookup. -/
def alookup {κ α : Type} [DecidableEq κ] : List (κ × α) → κ → Option α
  | [], _ => none
  | (k1, v) :: rest, k => if k1 = k then some v else alookup rest k

/-- Dict store: replace an existing binding or append a new one. -/
def aset {κ α : Type} [DecidableEq κ] : List (κ × α) → κ → α → List (κ × α)
  | [], k, v => [(k, v)]
  | (k1, v1) :: rest, k, v =>
    if k1 = k then (k, v) :: rest else (k1, v1) :: aset rest k v

/-- Dict pop: remove the binding for a key. -/
def adel {κ α : Type} [DecidableEq κ] : List (κ × α) → κ → List (κ × α)
  | [], _ => []
  | (k1, v1) :: rest, k =>
    if k1 = k then rest else (k1, v1) :: adel rest k

/-- defaultdict(int) read. -/
def dgetD (d : List (Key × ℤ)) (k : Key) : ℤ := (alookup d k).getD 0

namespace StreamMetricsM

/-- Rolling window state of utils.stream_metrics._Win. -/
structure Win where
  seconds : ℚ
  arrivals : List ℚ
  samples : List (ℚ × ℤ × ℚ)
deriving Repr, DecidableEq

/-- Embedding of _Win._prune: pop entries older than now - seconds from the
front of each deque. -/
def Win.prune (w : Win) (now : ℚ) : Win :=
  let cutoff := now - w.seconds
  { w with arrivals := w.arrivals.dropWhile (fun t => t < cutoff),
           samples := w.samples.dropWhile (fun r => r.1 < cutoff) }

/-- Embedding of _Win.add_arrival. -/
def Win.add_arrival (w : Win) (t_mono : ℚ) : Win :=
  Win.prune { w with arrivals := w.arrivals ++ [t_mono] } t_mono

/-- Embedding of _Win.add_samples. -/
def Win.add_samples (w : Win) (t_mono : ℚ) (n : ℤ) (fs : ℚ) : Win :=
  Win.prune { w with samples := w.samples ++ [(t_mono, n, if fs != 0 then fs else 0)] } t_mono

/-- defaultdict(lambda: _Win(sec)) read. -/
def wgetD (d : List (Key × Win)) (k : Key) (sec : ℚ) : Win :=
  (alookup d k).getD ⟨sec, [], []⟩

/-- Control packet types excluded from the statistics. -/
def CONTROL_TYPES : List String := ["ping", "pong", "hub_status"]

/-- State of utils.stream_metrics.StreamMetrics. -/
structure StreamMetrics where
  win_short : ℚ
  win_long : ℚ
  last_seq : List (Key × ℤ)
  pkts_recv : List (Key × ℤ)
  pkts_miss : List (Key × ℤ)
  pkts_ooo : List (Key × ℤ)
  wins_s : List (Key × Win)
  wins_l : List (Key × Win)
deriving Repr, DecidableEq

/-- StreamMetrics.__init__ with the source defaults win_short=10, win_long=60. -/
def StreamMetrics.init : StreamMetrics :=
  { win_short := 10, win_long := 60, last_seq := [],
    pkts_recv := [], pkts_miss := [], pkts_ooo := [], wins_s := [], wins_l := [] }

/-- Embedding of StreamMetrics._key: (device, type) with the Python or-chain
over device / deviceLabel / deviceId, requiring both to be strings. -/
def StreamMetrics.key (j : Json) : Option Key :=
  let typ := pyGet j "type"
  let dev := pyOrV (pyGet j "device") (pyOrV (pyGet j "deviceLabel") (pyGet j "deviceId"))
  match typ, dev with
  | some (JVal.jstr t), some (JVal.jstr d) => some (d, t)
  | _, _ => none

/-- Embedding of StreamMetrics.observe. -/
def StreamMetrics.observe (m : StreamMetrics) (j : Json) (t_mono : ℚ) : StreamMetrics :=
  let isControl :=
    match pyGet j "type" with
    | some (JVal.jstr t) => CONTROL_TYPES.contains t
    | _ => false
  if isControl then m
  else
    match StreamMetrics.key j with
    | none => m
    | some k =>
      let m1 := { m with pkts_recv := aset m.pkts_recv k (dgetD m.pkts_recv k + 1) }
      let m2 :=
        match asPyInt (pyGet j "seq") with
        | some seq =>
          let m15 :=
            match alookup m1.last_seq k with
            | some last =>
              let gap := seq - last - 1
              if gap > 0 then
                { m1 with pkts_miss := aset m1.pkts_miss k (dgetD m1.pkts_miss k + gap) }
              else if gap < 0 then
                { m1 with pkts_ooo := aset m1.pkts_ooo k (dgetD m1.pkts_ooo k + 1) }
              else m1
            | none => m1
          { m15 with last_seq := aset m15.last_seq k seq }
        | none => m1
      let m3 := { m2 with
        wins_s := aset m2.wins_s k ((wgetD m2.wins_s k m2.win_short).add_arrival t_mono),
        wins_l := aset m2.wins_l k ((wgetD m2.wins_l k m2.win_long).add_arrival t_mono) }
      match JsonGuard.f (pyGet j "fs"), asPyInt (pyGet j "n") with
      | some fs, some n =>
        { m3 with
          wins_s := aset m3.wins_s k ((wgetD m3.wins_s k m3.win_short).add_samples t_mono n fs),
          wins_l := aset m3.wins_l k ((wgetD m3.wins_l k m3.win_long).add_samples t_mono n fs) }
      | _, _ => m3

/-- Packet-counter section of one snapshot entry. -/
structure PktStats where
  recv : ℤ
  miss : ℤ
  ooo : ℤ
  loss_rate : ℚ
deriving Repr, DecidableEq

/-- Embedding of the pkts section of StreamMetrics.snapshot for one key. -/
def StreamMetrics.snapshotPkts (m : StreamMetrics) (k : Key) : PktStats :=
  let recv := dgetD m.pkts_recv k
  let miss := dgetD m.pkts_miss k
  let ooo := dgetD m.pkts_ooo k
  { recv := recv, miss := miss, ooo := ooo,
    loss_rate := if recv + miss > 0 then miss / (recv + miss) else 0 }

/-- Fold a list of (packet, arrival time) observations from a start state. -/
def runObserve (m : StreamMetrics) (L : List (Json × ℚ)) : StreamMetrics :=
  L.foldl (fun acc p => acc.observe p.1 p.2) m

end StreamMetricsM

/-! String helpers mirroring the Python str methods used by the source
(ASCII case mapping; the protocol strings are ASCII). -/

/-- Python str.upper, as a character map over the string data. -/
def upperStr (s : String) : String := String.mk (s.data.map Char.toUpper)

/-- Python str.lower, as a character map over the string data. -/
def lowerStr (s : String) : String := String.mk (s.data.map Char.toLower)

/-- Python str.strip of underscore characters from both ends. -/
def stripUnderscores (s : String) : String :=
  String.mk (((s.data.dropWhile (fun c => c == '_')).reverse.dropWhile (fun c => c == '_')).reverse)

/-- Whether pat occurs at the head of s (character-list comparison). -/
def charsLead : List Char → List Char → Bool
  | [], _ => true
  | _ :: _, [] => false
  | a :: as, b :: bs => a == b && charsLead as bs

/-- Whether pat occurs anywhere in s (character-list comparison). -/
def charsHave (pat : List Char) : List Char → Bool
  | [] => charsLead pat []
  | c :: rest => charsLead pat (c :: rest) || charsHave pat rest

/-- Python substring test: pat in s. -/
def strContains (s pat : String) : Bool := charsHave pat.data s.data

namespace ClockSyncM

/-- State of one clock_sync._OffsetEWMA estimator. -/
structure OffsetEWMA where
  alpha : ℚ
  clamp : ℚ
  inited : Bool
  offset : ℚ
deriving Repr, DecidableEq

/-- Embedding of _OffsetEWMA.update: clamp the per-sample jump, then smooth
with an EWMA; on the first sample just adopt it. -/
def OffsetEWMA.update (e : OffsetEWMA) (sample_offset : ℚ) : OffsetEWMA :=
  if e.inited then
    let delta := sample_offset - e.offset
    let s := if |delta| > e.clamp
             then e.offset + (if delta > 0 then e.clamp else -e.clamp)
             else sample_offset
    { e with offset := (1 - e.alpha) * e.offset + e.alpha * s }
  else
    { e with offset := sample_offset, inited := true }

/-- State of clock_sync.ClockSync: per-device estimators plus the parameters
used to create new ones. -/
structure ClockSync where
  alpha : ℚ
  clamp_s : ℚ
  per_device : List (String × OffsetEWMA)
deriving Repr, DecidableEq

/-- ClockSync.__init__ with the source defaults alpha=0.05, clamp_s=1.0. -/
def ClockSync.init : ClockSync := { alpha := 0.05, clamp_s := 1, per_device := [] }

/-- Embedding of ClockSync._get: the device's estimator, created fresh from
the sync parameters when absent. -/
def ClockSync.getEst (c : ClockSync) (device : String) : OffsetEWMA :=
  (alookup c.per_device device).getD
    { alpha := c.alpha, clamp := c.clamp_s, inited := false, offset := 0 }

/-- Embedding of ClockSync.map_event_ts with an explicit arrival time (the
source defaults a missing ts_arrival to local_clock; every caller in the
claims passes it).  Returns the mapped host timestamp and the updated state. -/
def ClockSync.map_event_ts (c : ClockSync) (device : String)
    (t_device te : Option ℚ) (ts_arrival : ℚ) : ℚ × ClockSync :=
  match t_device with
  | some td =>
    let e1 := (c.getEst device).update (ts_arrival - td)
    let off := e1.offset
    let c1 := { c with per_device := aset c.per_device device e1 }
    (match te with
     | some t => (t + off, c1)
     | none => (td + off, c1))
  | none => (ts_arrival, c)

end ClockSyncM

namespace RegistryM

/-- One LSL outlet as created by the registry: the StreamInfo descriptor
fields the source fixes. -/
structure Outlet where
  name : String
  stype : String
  channels : ℤ
  srate : ℚ
  format : String
  units : String
  source_id : String
deriving Repr, DecidableEq

/-- State of utils.lsl_registry.LSLRegistry. -/
structure LSLRegistry where
  session : String
  outlets : List (String × Outlet)
deriving Repr, DecidableEq

/-- LSLRegistry.__init__ with no session label (session_label or ""). -/
def LSLRegistry.init : LSLRegistry := { session := "", outlets := [] }

/-- Embedding of LSLRegistry._key. -/
def LSLRegistry.rkey (typ device : String) : String :=
  upperStr typ ++ "::" ++ device

/-- Embedding of LSLRegistry.ensure: return the cached outlet for the key if
one exists, otherwise create, cache and return a new float32 outlet. -/
def LSLRegistry.ensure (r : LSLRegistry) (typ device : String)
    (channels : ℤ) (srate : ℚ) (units : String) : Outlet × LSLRegistry :=
  let key := LSLRegistry.rkey typ device
  match alookup r.outlets key with
  | some o => (o, r)
  | none =>
    let name := "PB_" ++ upperStr typ ++ "_" ++ device ++ r.session
    let stype := upperStr typ
    let sid := stripUnderscores ("pb_" ++ typ ++ "_" ++ device ++ "_" ++ r.session)
    let o : Outlet :=
      { name := name, stype := stype, channels := channels, srate := srate,
        format := "float32", units := units, source_id := sid }
    (o, { r with outlets := aset r.outlets key o })

end RegistryM

namespace PingPongM

/-- One stored ping-pong measurement. -/
structure Measurement where
  ts_pc : ℚ
  rtt_ms : ℚ
  offset_ms : ℚ
deriving Repr, DecidableEq

/-- State of ping_pong.PingPong relevant to reply handling: the pending
ping per device and the most recent measurement per device. -/
structure PingPong where
  pending : List (String × ℚ)
  last : List (String × Measurement)
deriving Repr, DecidableEq

/-- Device resolution in PingPong.on_datagram_json: the Python or-chain
device_hint or obj.get("device") or obj.get("deviceLabel") or "UNKNOWN". -/
def resolveDev (device_hint : Option String) (obj : Json) : String :=
  let hv : Option JVal := device_hint.map JVal.jstr
  match pyOrV hv (pyOrV (pyGet obj "device") (pyGet obj "deviceLabel")) with
  | some v => if pyTruthy v then pyStr v else "UNKNOWN"
  | none => "UNKNOWN"

/-- Embedding of PingPong.on_datagram_json: on a pong whose timestamps all
coerce to float and whose t0 matches the pending ping for the resolved
device within 2 seconds, store the RTT and offset measurement and clear the
pending entry; otherwise leave the state unchanged. -/
def PingPong.on_datagram_json (p : PingPong) (obj : Json) (recv_t_pc : ℚ)
    (device_hint : Option String) : PingPong :=
  match pyGet obj "type" with
  | some (JVal.jstr "pong") =>
    let dev := resolveDev device_hint obj
    let t3 := recv_t_pc
    match (pyGet obj "t0_pc").bind pyFloat, (pyGet obj "t1_ph").bind pyFloat,
          (pyGet obj "t2_ph").bind pyFloat with
    | some t0, some t1, some t2 =>
      match alookup p.pending dev with
      | some pend =>
        if pend = 0 ∨ |pend - t0| > 2 then p
        else
          let rtt := (t3 - t0) - (t2 - t1)
          let offset := ((t1 - t0) + (t2 - t3)) / 2
          { p with
            last := aset p.last dev
              { ts_pc := t3, rtt_ms := max 0 (rtt * 1000), offset_ms := offset * 1000 },
            pending := adel p.pending dev }
      | none => p
    | _, _, _ => p
  | _ => p

end PingPongM

/-- Python str.strip of whitespace from both ends. -/
def trimStr (s : String) : String :=
  String.mk (((s.data.dropWhile Char.isWhitespace).reverse.dropWhile Char.isWhitespace).reverse)

namespace TranslatorM

open RegistryM ClockSyncM

/-- One LSL push performed by the translator: either a single timestamped
sample (a value of none is a NaN channel) or an untimestamped chunk of rows. -/
inductive PushEvent where
  | sample (out : Outlet) (values : List (Option ℚ)) (timestamp : ℚ)
  | chunk (out : Outlet) (rows : List (List ℚ))
deriving Repr, DecidableEq

/-- Result of one handle call: the returned boolean, the updated registry
and clock states, and the pushes performed. -/
structure HandleResult where
  consumed : Bool
  registry : LSLRegistry
  clock : ClockSync
  pushes : List PushEvent
deriving Repr, DecidableEq

/-- Python membership test x in (1, True), which compares by numeric
equality (True == 1). -/
def isOneOrTrue : Option JVal → Bool
  | some (JVal.jint z) => z == 1
  | some (JVal.jnum q) => q == 1
  | some (JVal.jbool b) => b
  | _ => false

/-- Python try int(x) except 0: truncation toward zero for floats, 0 when
the coercion raises. -/
def pyIntOf : Option JVal → ℤ
  | some (JVal.jint z) => z
  | some (JVal.jbool b) => if b then 1 else 0
  | some (JVal.jnum q) => if 0 ≤ q then ⌊q⌋ else ⌈q⌉
  | _ => 0

/-- Embedding of Translators.polar_numberic.handle: classify one JSON object
by its type field and emit at most one sample or chunk on the matching
outlet, threading the registry and clock-sync state. -/
def handle (obj : Json) (host_ts : ℚ) (registry : LSLRegistry) (clock : ClockSync) :
    HandleResult :=
  match pyGet obj "type" with
  | some (JVal.jstr typ0) =>
    if typ0 ∈ (["rr", "ppi", "hr", "ecg", "acc", "ppg"] : List String) then
      let device : String :=
        match pyGet obj "device" with
        | some v => if pyTruthy v then pyStr v else "Unknown"
        | none => "Unknown"
      let t_dev := JsonGuard.f (pyGet obj "t_device")
      let te := JsonGuard.f (pyGet obj "te")
      let typ := lowerStr (trimStr (pyStr ((pyGet obj "type").getD (JVal.jstr ""))))
      if typ = "ppi" then
        match JsonGuard.f (pyGet obj "ms") with
        | none => ⟨false, registry, clock, []⟩
        | some ms =>
          let qv : Option ℚ := JsonGuard.f (pyGet obj "quality")
          let blocker : ℚ := if isOneOrTrue (pyGet obj "blocker") then 1 else 0
          let skin_contact : ℚ := if isOneOrTrue (pyGet obj "skinContact") then 1 else 0
          let skin_supported : ℚ := if isOneOrTrue (pyGet obj "skinSupported") then 1 else 0
          let device2 := pyStr ((pyGet obj "device").getD (JVal.jstr "Polar"))
          let t_dev2 := (pyGet obj "t_device").bind pyFloat
          let te2 := (pyGet obj "te").bind pyFloat
          let mres := clock.map_event_ts device2 t_dev2 te2 host_ts
          let eres :=
            registry.ensure "ppi" device2 6 0 "ms,quality,blocker,skinContact,skinSupported,te"
          ⟨true, eres.2, mres.2,
            [PushEvent.sample eres.1
              [some ms, qv, some blocker, some skin_contact, some skin_supported, te2] mres.1]⟩
      else if typ = "hr" then
        match JsonGuard.f (pyGet obj "bpm") with
        | none => ⟨false, registry, clock, []⟩
        | some bpm =>
          let mres := clock.map_event_ts device t_dev none host_ts
          let eres := registry.ensure "hr" device 1 0 "bpm"
          ⟨true, eres.2, mres.2, [PushEvent.sample eres.1 [some bpm] mres.1]⟩
      else if typ = "ecg" then
        match JsonGuard.f (pyGet obj "fs"), pyGet obj "uV" with
        | some fs, some (JVal.jarr cells) =>
          if cells.isEmpty then ⟨false, registry, clock, []⟩
          else
            let rows := cells.filterMap (fun x => (JsonGuard.f (some x)).map (fun q => [q]))
            if rows.isEmpty then ⟨false, registry, clock, []⟩
            else
              let eres := registry.ensure "ecg" device 1 fs "uV"
              ⟨true, eres.2, clock, [PushEvent.chunk eres.1 rows]⟩
        | _, _ => ⟨false, registry, clock, []⟩
      else if typ = "acc" then
        match JsonGuard.f (pyGet obj "fs"), pyGet obj "mG" with
        | some fs, some (JVal.jarr cells) =>
          if cells.isEmpty then ⟨false, registry, clock, []⟩
          else
            let rows := JsonGuard.rows_as_float (some (JVal.jarr cells)) 3
            if rows.isEmpty then ⟨false, registry, clock, []⟩
            else
              let eres := registry.ensure "acc" device 3 fs "mG"
              ⟨true, eres.2, clock, [PushEvent.chunk eres.1 rows]⟩
        | _, _ => ⟨false, registry, clock, []⟩
      else if typ = "ppg" then
        let ch := pyIntOf (pyGet obj "ch")
        match JsonGuard.f (pyGet obj "fs"), pyGet obj "mU" with
        | some fs, some (JVal.jarr cells) =>
          if ch ≤ 0 ∨ cells.isEmpty then ⟨false, registry, clock, []⟩
          else
            let rows := JsonGuard.rows_as_float (some (JVal.jarr cells)) ch
            if rows.isEmpty then ⟨false, registry, clock, []⟩
            else
              let eres := registry.ensure "ppg" device ch fs "a.u."
              ⟨true, eres.2, clock, [PushEvent.chunk eres.1 rows]⟩
        | _, _ => ⟨false, registry, clock, []⟩
      else if typ = "rr" then
        match JsonGuard.f (pyGet obj "ms") with
        | none => ⟨false, registry, clock, []⟩
        | some ms =>
          let mres := clock.map_event_ts device t_dev te host_ts
          let eres := registry.ensure "rr" device 2 0 "ms,te"
          ⟨true, eres.2, mres.2, [PushEvent.sample eres.1 [some ms, te] mres.1]⟩
      else ⟨false, registry, clock, []⟩
    else ⟨false, registry, clock, []⟩
  | _ => ⟨false, registry, clock, []⟩

end TranslatorM

namespace MirrorM

/-- Outcome of json.loads on one pulled string payload: a JSON object, a
non-object JSON value (on which .get raises AttributeError, caught by the
same except branch as a parse failure), or a parse failure. -/
inductive ParseResult where
  | jobj (o : Json)
  | jother
  | jfail
deriving Repr

/-- One record of stop_markers.jsonl. -/
structure StopRec where
  time_lsl : ℚ
  label : String
  stream : String
deriving Repr, DecidableEq

/-- Embedding of the string-payload scan in Mirror.pull_once: every payload
is appended to the batch to be written; a stop record is appended when the
payload is a JSON object whose lowercased label contains "stop" or whose
lowercased cmd equals "stop", or, when json.loads or .get raises, when the
lowercased raw text contains "stop".  ts0 is the corrected timestamp of the
first sample of the batch (ts_corr[0] in the source). -/
def mirrorStep (ts0 : ℚ) (stream_name : String)
    (acc : List String × List StopRec) (sp : String × ParseResult) :
    List String × List StopRec :=
  let text := sp.1
  let recs : List StopRec :=
    match sp.2 with
    | ParseResult.jobj o =>
      let label := lowerStr (pyStr ((pyGet o "label").getD (JVal.jstr "")))
      let cmd := lowerStr (pyStr ((pyGet o "cmd").getD (JVal.jstr "")))
      if strContains label "stop" || cmd == "stop"
      then [{ time_lsl := ts0, label := text, stream := stream_name }] else []
    | _ =>
      if strContains (lowerStr text) "stop"
      then [{ time_lsl := ts0, label := text, stream := stream_name }] else []
  (acc.1 ++ [text], acc.2 ++ recs)

def mirrorScanTexts (samples : List (String × ParseResult)) (ts0 : ℚ)
    (stream_name : String) : List String × List StopRec :=
  samples.foldl (mirrorStep ts0 stream_name) ([], [])

end MirrorM

namespace HKHM

/-- The StreamInfo descriptor fields fixed by a source-level outlet
declaration. -/
structure StreamInfoDecl where
  name : String
  stype : String
  channel_count : ℤ
  nominal_srate : ℚ
  channel_format : String
  source_id : String
deriving Repr, DecidableEq

/-- The respiration outlet declared at the top of hkh_bridge_batch.py. -/
def hkhRespirationInfo : StreamInfoDecl :=
  { name := "HB_Respiration_HKH", stype := "Respiration", channel_count := 1,
    nominal_srate := 50, channel_format := "int16", source_id := "HKH_Device" }

end HKHM

/-- A minimal business data packet carrying only type, device and seq, used
for concrete metrics runs. -/
def seqPkt (s : ℤ) : Json :=
  [("type", JVal.jstr "ppg"), ("device", JVal.jstr "Verity"), ("seq", JVal.jint s)]

/-- The RR packet of scenario S1 with a parametric ms field. -/
def rrPktMs (v : JVal) : Json :=
  [("type", JVal.jstr "rr"), ("device", JVal.jstr "H10"),
   ("t_device", JVal.jnum 1000), ("te", JVal.jnum 1000.020),
   ("ms", v), ("seq", JVal.jint 0)]

/-- The RR packet of scenario S1. -/
def rrPkt : Json := rrPktMs (JVal.jint 812)

/-- The outlet the registry creates for the first rr packet from device
H10 with no session suffix. -/
def rrOutlet : RegistryM.Outlet :=
  { name := "PB_RR_H10", stype := "RR", channels := 2, srate := 0,
    format := "float32", units := "ms,te", source_id := "pb_rr_H10" }

end PhysioBridge

namespace PhysioBridge

open StreamMetricsM ClockSyncM RegistryM PingPongM TranslatorM MirrorM HKHM

/-! Helper lemmas about the dictionary operations. -/

theorem alookup_aset {κ α : Type} [DecidableEq κ] (d : List (κ × α)) (k k0 : κ) (v : α) :
    alookup (aset d k v) k0 = if k = k0 then some v else alookup d k0 := by
  induction d with
  | nil => simp [aset, alookup]
  | cons hd tl ih =>
    obtain ⟨k1, v1⟩ := hd
    by_cases h : k1 = k
    · simp only [aset, if_pos h, alookup]
      by_cases h0 : k = k0
      · simp [h0]
      · have h1 : ¬k1 = k0 := fun hh => h0 (h.symm.trans hh)
        simp [h0, h1]
    · simp only [aset, if_neg h, alookup, ih]
      by_cases h0 : k1 = k0
      · have h1 : ¬k = k0 := fun hh => h (h0.trans hh.symm)
        simp [h0, h1]
      · simp [h0]

theorem dgetD_aset (d : List (Key × ℤ)) (k k0 : Key) (v : ℤ) :
    dgetD (aset d k v) k0 = if k = k0 then v else dgetD d k0 := by
  simp only [dgetD, alookup_aset]
  split_ifs <;> rfl

/-! C2 and C3: outlet registry behaviour. -/

/-- C2 counterexample: after ensure("ppg", "X", 3, 130, "a.u.") has created an
outlet, a second ensure with mismatching channels (4 instead of 3) does not
fail: it silently returns the cached 3-channel outlet and leaves the registry
state unchanged. -/
theorem C2_counterexample :
    ((LSLRegistry.init.ensure "ppg" "X" 3 130 "a.u.").2.ensure "ppg" "X" 4 130 "a.u.").1 =
      (LSLRegistry.init.ensure "ppg" "X" 3 130 "a.u.").1 ∧
    ((LSLRegistry.init.ensure "ppg" "X" 3 130 "a.u.").2.ensure "ppg" "X" 4 130 "a.u.").2 =
      (LSLRegistry.init.ensure "ppg" "X" 3 130 "a.u.").2 ∧
    (((LSLRegistry.init.ensure "ppg" "X" 3 130 "a.u.").2.ensure "ppg" "X" 4 130
      "a.u.").1).channels = 3 := by
  decide

/-- C2 amended: ensure is idempotent on (kind, device): once an outlet is
cached for the key, every subsequent ensure call, whether or not channels,
rate or units match the first call, returns the cached outlet and leaves the
registry unchanged; no mismatch detection is performed. -/
theorem C2_amended (r : LSLRegistry) (typ device : String) (o : Outlet)
    (channels : ℤ) (srate : ℚ) (units : String)
    (h : alookup r.outlets (LSLRegistry.rkey typ device) = some o) :
    r.ensure typ device channels srate units = (o, r) := by
  simp [LSLRegistry.ensure, h]

/-- C2 amended witness: the cached-return behaviour at a concrete mismatched
call. -/
theorem C2_amended_witness :
    (LSLRegistry.init.ensure "ppg" "X" 3 130 "a.u.").2.ensure "ppg" "X" 4 130 "a.u." =
      ((LSLRegistry.init.ensure "ppg" "X" 3 130 "a.u.").1,
       (LSLRegistry.init.ensure "ppg" "X" 3 130 "a.u.").2) :=
  C2_amended _ "ppg" "X" _ 4 130 "a.u." (by decide)

/-- C3 counterexample: the respiration outlet HB_Respiration_HKH declared by
the serial worker has 1 channel and nominal rate 50 but channel format
int16, not 32-bit float. -/
theorem C3_counterexample :
    hkhRespirationInfo.name = "HB_Respiration_HKH" ∧
    hkhRespirationInfo.channel_count = 1 ∧
    hkhRespirationInfo.nominal_srate = 50 ∧
    hkhRespirationInfo.channel_format = "int16" ∧
    hkhRespirationInfo.channel_format ≠ "float32" := by
  refine ⟨rfl, rfl, by norm_num [hkhRespirationInfo], rfl, by decide⟩

/-- C3 amended: every outlet created by the outlet registry uses 32-bit
float channels, but the respiration outlet of the serial worker is declared
directly (outside the registry) with int16 channels. -/
theorem C3_amended :
    (∀ (r : LSLRegistry) (typ device : String) (channels : ℤ) (srate : ℚ) (units : String),
      alookup r.outlets (LSLRegistry.rkey typ device) = none →
      ((r.ensure typ device channels srate units).1).format = "float32") ∧
    hkhRespirationInfo.channel_format = "int16" := by
  constructor
  · intro r typ device channels srate units h
    simp [LSLRegistry.ensure, h]
  · rfl

/-- C3 amended witness: a concrete fresh ensure call yields a float32
outlet, and the serial worker outlet is int16. -/
theorem C3_amended_witness :
    ((LSLRegistry.init.ensure "rr" "H10" 2 0 "ms,te").1).format = "float32" ∧
    hkhRespirationInfo.channel_format = "int16" :=
  ⟨C3_amended.1 LSLRegistry.init "rr" "H10" 2 0 "ms,te" (by decide), C3_amended.2⟩

/-! C8: control packets do not touch the metrics state. -/

/-- C8: observing a packet whose type is ping, pong or hub_status leaves the
entire metrics state unchanged: every counter dictionary and every arrival
and sample window is exactly the state before the call. -/
theorem C8_control_noop (m : StreamMetrics) (j : Json) (t : ℚ) (ty : String)
    (hty : pyGet j "type" = some (JVal.jstr ty))
    (hc : CONTROL_TYPES.contains ty = true) :
    m.observe j t = m := by
  simp only [StreamMetrics.observe, hty, hc]
  rfl

/-- C8 witness: a concrete ping packet observed on the initial state. -/
theorem C8_witness :
    StreamMetrics.init.observe [("type", JVal.jstr "ping"), ("device", JVal.jstr "H10")] 5 =
      StreamMetrics.init :=
  C8_control_noop StreamMetrics.init _ 5 "ping" rfl rfl

/-! C1: last_seq behaviour of the loss accounting. -/

/-- C1 counterexample: observing seq 0, 1, 4, 3 for one (device, kind) key
gives recv 4, missing 2, out_of_order 1 as claimed, but last_seq ends at 3,
not 4: observe stores the incoming seq unconditionally instead of keeping
the maximum. -/
theorem C1_counterexample :
    dgetD (runObserve StreamMetrics.init
      [(seqPkt 0, 0), (seqPkt 1, 1), (seqPkt 4, 2), (seqPkt 3, 3)]).pkts_recv
      ("Verity", "ppg") = 4 ∧
    dgetD (runObserve StreamMetrics.init
      [(seqPkt 0, 0), (seqPkt 1, 1), (seqPkt 4, 2), (seqPkt 3, 3)]).pkts_miss
      ("Verity", "ppg") = 2 ∧
    dgetD (runObserve StreamMetrics.init
      [(seqPkt 0, 0), (seqPkt 1, 1), (seqPkt 4, 2), (seqPkt 3, 3)]).pkts_ooo
      ("Verity", "ppg") = 1 ∧
    alookup (runObserve StreamMetrics.init
      [(seqPkt 0, 0), (seqPkt 1, 1), (seqPkt 4, 2), (seqPkt 3, 3)]).last_seq
      ("Verity", "ppg") = some 3 ∧
    ¬ alookup (runObserve StreamMetrics.init
      [(seqPkt 0, 0), (seqPkt 1, 1), (seqPkt 4, 2), (seqPkt 3, 3)]).last_seq
      ("Verity", "ppg") = some 4 := by
  decide

/-- C1 amended: on a business packet whose integer seq is smaller than the
retained last_seq for its key, observe increments out_of_order by 1, leaves
the missing counters untouched, increments recv by 1, and sets last_seq to
the incoming smaller seq (not to the maximum seen so far). -/
theorem C1_amended (m : StreamMetrics) (j : Json) (t : ℚ) (k : Key)
    (s prev : ℤ) (ty : String)
    (hty : pyGet j "type" = some (JVal.jstr ty))
    (hnc : CONTROL_TYPES.contains ty = false)
    (hk : StreamMetrics.key j = some k)
    (hs : asPyInt (pyGet j "seq") = some s)
    (hl : alookup m.last_seq k = some prev)
    (hlt : s < prev) :
    dgetD (m.observe j t).pkts_recv k = dgetD m.pkts_recv k + 1 ∧
    (m.observe j t).pkts_miss = m.pkts_miss ∧
    dgetD (m.observe j t).pkts_ooo k = dgetD m.pkts_ooo k + 1 ∧
    alookup (m.observe j t).last_seq k = some s := by
  simp only [StreamMetrics.observe, hty, hnc, hk, hs, hl, Bool.false_eq_true, if_false]
  rw [if_neg (by omega : ¬ s - prev - 1 > 0), if_pos (by omega : s - prev - 1 < 0)]
  split <;>
    simp [dgetD_aset, alookup_aset]

/-- C1 amended witness: seq 3 arriving while last_seq is 4. -/
theorem C1_amended_witness :
    dgetD ((runObserve StreamMetrics.init
        [(seqPkt 0, 0), (seqPkt 1, 1), (seqPkt 4, 2)]).observe (seqPkt 3) 3).pkts_recv
      ("Verity", "ppg") =
      dgetD (runObserve StreamMetrics.init
        [(seqPkt 0, 0), (seqPkt 1, 1), (seqPkt 4, 2)]).pkts_recv ("Verity", "ppg") + 1 ∧
    ((runObserve StreamMetrics.init
        [(seqPkt 0, 0), (seqPkt 1, 1), (seqPkt 4, 2)]).observe (seqPkt 3) 3).pkts_miss =
      (runObserve StreamMetrics.init
        [(seqPkt 0, 0), (seqPkt 1, 1), (seqPkt 4, 2)]).pkts_miss ∧
    dgetD ((runObserve StreamMetrics.init
        [(seqPkt 0, 0), (seqPkt 1, 1), (seqPkt 4, 2)]).observe (seqPkt 3) 3).pkts_ooo
      ("Verity", "ppg") =
      dgetD (runObserve StreamMetrics.init
        [(seqPkt 0, 0), (seqPkt 1, 1), (seqPkt 4, 2)]).pkts_ooo ("Verity", "ppg") + 1 ∧
    alookup ((runObserve StreamMetrics.init
        [(seqPkt 0, 0), (seqPkt 1, 1), (seqPkt 4, 2)]).observe (seqPkt 3) 3).last_seq
      ("Verity", "ppg") = some 3 :=
  C1_amended _ (seqPkt 3) 3 ("Verity", "ppg") 3 4 "ppg"
    rfl rfl rfl rfl (by decide) (by decide)

/-! C4: clock synchronization. -/

/-- The initialized EWMA update written with the clamp as a min/max. -/
theorem update_inited_eq (e : OffsetEWMA) (sample : ℚ)
    (h : e.inited = true) (hc : 0 ≤ e.clamp) :
    e.update sample =
      { e with offset := (1 - e.alpha) * e.offset +
          e.alpha * (e.offset + max (-e.clamp) (min e.clamp (sample - e.offset))) } := by
  simp only [OffsetEWMA.update, h, if_true]
  have hs : (if |sample - e.offset| > e.clamp
        then e.offset + (if sample - e.offset > 0 then e.clamp else -e.clamp)
        else sample)
      = e.offset + max (-e.clamp) (min e.clamp (sample - e.offset)) := by
    by_cases hd : |sample - e.offset| > e.clamp
    · rw [if_pos hd]
      by_cases hp : sample - e.offset > 0
      · rw [if_pos hp, abs_of_pos hp] at *
        rw [min_eq_left (le_of_lt hd), max_eq_right (by linarith : -e.clamp ≤ e.clamp)]
      · rw [if_neg hp]
        push_neg at hp
        rw [abs_of_nonpos hp] at hd
        rw [min_eq_right (by linarith : sample - e.offset ≤ e.clamp),
            max_eq_left (by linarith : sample - e.offset ≤ -e.clamp)]
    · rw [if_neg hd]
      push_neg at hd
      obtain ⟨hl, hr⟩ := abs_le.mp hd
      rw [min_eq_right hr, max_eq_right hl]
      ring
  rw [hs]

/-- C4: map_event_ts returns the arrival time and leaves the state alone
when t_device is null; otherwise it folds sample = t_arrival - t_device
into the per-device EWMA offset (adopting it outright when uninitialized,
else smoothing the clamped increment) and returns (t_event, defaulting to
t_device) plus the updated offset; once initialized a single call moves the
offset by at most alpha times clamp_s. -/
theorem C4_map_event_ts (c : ClockSync) (device : String) (td ta : ℚ) (te : Option ℚ)
    (ha : 0 ≤ (c.getEst device).alpha) (hc : 0 ≤ (c.getEst device).clamp) :
    (c.map_event_ts device none te ta = (ta, c)) ∧
    ((c.getEst device).inited = false →
      (c.map_event_ts device (some td) te ta).2.per_device =
        aset c.per_device device
          { c.getEst device with offset := ta - td, inited := true } ∧
      (c.map_event_ts device (some td) te ta).1 = (te.getD td) + (ta - td)) ∧
    ((c.getEst device).inited = true →
      (c.map_event_ts device (some td) te ta).2.per_device =
        aset c.per_device device
          { c.getEst device with offset :=
              (1 - (c.getEst device).alpha) * (c.getEst device).offset +
              (c.getEst device).alpha * ((c.getEst device).offset +
                max (-(c.getEst device).clamp)
                    (min (c.getEst device).clamp ((ta - td) - (c.getEst device).offset))) } ∧
      (c.map_event_ts device (some td) te ta).1 = (te.getD td) +
          ((1 - (c.getEst device).alpha) * (c.getEst device).offset +
            (c.getEst device).alpha * ((c.getEst device).offset +
              max (-(c.getEst device).clamp)
                  (min (c.getEst device).clamp ((ta - td) - (c.getEst device).offset)))) ∧
      |((1 - (c.getEst device).alpha) * (c.getEst device).offset +
          (c.getEst device).alpha * ((c.getEst device).offset +
            max (-(c.getEst device).clamp)
                (min (c.getEst device).clamp ((ta - td) - (c.getEst device).offset)))) -
        (c.getEst device).offset| ≤ (c.getEst device).alpha * (c.getEst device).clamp) := by
  refine ⟨rfl, ?_, ?_⟩
  · intro h
    simp only [ClockSync.map_event_ts, OffsetEWMA.update, h, Bool.false_eq_true, if_false]
    cases te <;> simp
  · intro h
    have hupd := update_inited_eq (c.getEst device) (ta - td) h hc
    have hbound :
        |((1 - (c.getEst device).alpha) * (c.getEst device).offset +
            (c.getEst device).alpha * ((c.getEst device).offset +
              max (-(c.getEst device).clamp)
                  (min (c.getEst device).clamp ((ta - td) - (c.getEst device).offset)))) -
          (c.getEst device).offset| ≤ (c.getEst device).alpha * (c.getEst device).clamp := by
      set K := max (-(c.getEst device).clamp)
          (min (c.getEst device).clamp ((ta - td) - (c.getEst device).offset)) with hK
      have h1 : ((1 - (c.getEst device).alpha) * (c.getEst device).offset +
          (c.getEst device).alpha * ((c.getEst device).offset + K)) -
          (c.getEst device).offset = (c.getEst device).alpha * K := by ring
      rw [h1, abs_mul, abs_of_nonneg ha]
      have hKb : |K| ≤ (c.getEst device).clamp := by
        rw [abs_le]
        constructor
        · exact le_max_left _ _
        · exact max_le (by linarith) (min_le_left _ _)
      exact mul_le_mul_of_nonneg_left hKb ha
    refine ⟨?_, ?_, hbound⟩
    · simp only [ClockSync.map_event_ts, hupd]
      cases te <;> rfl
    · simp only [ClockSync.map_event_ts, hupd]
      cases te <;> rfl

/-- C4 witness: the null-t_device path at a concrete call on the initial
sync state. -/
theorem C4_witness :
    ClockSync.init.map_event_ts "H10" none (some 5) 7 = (7, ClockSync.init) :=
  (C4_map_event_ts ClockSync.init "H10" 0 7 (some 5)
    (by norm_num [ClockSync.getEst, ClockSync.init, alookup])
    (by norm_num [ClockSync.getEst, ClockSync.init, alookup])).1

/-! C6: ping-pong measurement. -/

/-- C6: every accepted pong reply stores the measurement with
rtt_ms = max(0, ((t3 - t0) - (t2 - t1)) times 1000) and
offset_ms = (((t1 - t0) + (t2 - t3)) / 2) times 1000, and the stored
rtt_ms is never negative. -/
theorem C6_pong_measurement (p : PingPong) (obj : Json) (t3 : ℚ) (hint : Option String)
    (dev : String) (t0 t1 t2 pend : ℚ)
    (htype : pyGet obj "type" = some (JVal.jstr "pong"))
    (hdev : resolveDev hint obj = dev)
    (ht0 : (pyGet obj "t0_pc").bind pyFloat = some t0)
    (ht1 : (pyGet obj "t1_ph").bind pyFloat = some t1)
    (ht2 : (pyGet obj "t2_ph").bind pyFloat = some t2)
    (hpend : alookup p.pending dev = some pend)
    (hok : ¬(pend = 0 ∨ |pend - t0| > 2)) :
    alookup (p.on_datagram_json obj t3 hint).last dev =
      some { ts_pc := t3, rtt_ms := max 0 (((t3 - t0) - (t2 - t1)) * 1000),
             offset_ms := (((t1 - t0) + (t2 - t3)) / 2) * 1000 } ∧
    0 ≤ max (0:ℚ) (((t3 - t0) - (t2 - t1)) * 1000) := by
  constructor
  · simp only [PingPong.on_datagram_json, htype, hdev, ht0, ht1, ht2, hpend, if_neg hok]
    simp [alookup_aset]
  · exact le_max_left _ _

/-- C6 witness: the concrete pong of scenario S5 gives rtt_ms 30 and
offset_ms -50005. -/
theorem C6_witness :
    alookup ((PingPong.mk [("H10", 100)] []).on_datagram_json
        [("type", JVal.jstr "pong"), ("t0_pc", JVal.jnum 100),
         ("t1_ph", JVal.jnum 50.010), ("t2_ph", JVal.jnum 50.030),
         ("device", JVal.jstr "H10")] 100.050 none).last "H10" =
      some { ts_pc := 100.050, rtt_ms := 30, offset_ms := -50005 } := by
  have h := (C6_pong_measurement ⟨[("H10", 100)], []⟩
    [("type", JVal.jstr "pong"), ("t0_pc", JVal.jnum 100),
     ("t1_ph", JVal.jnum 50.010), ("t2_ph", JVal.jnum 50.030),
     ("device", JVal.jstr "H10")] 100.050 none "H10" 100 50.010 50.030 100
    rfl (by decide) rfl rfl rfl (by decide) (by norm_num)).1
  rw [h]
  norm_num [max_def]

/-! C7: loss rate invariant. -/

/-- One observe call keeps the per-key recv and miss counters nonnegative. -/
theorem observe_nonneg_step (m : StreamMetrics) (j : Json) (t : ℚ) (k : Key)
    (h1 : 0 ≤ dgetD m.pkts_recv k) (h2 : 0 ≤ dgetD m.pkts_miss k) :
    0 ≤ dgetD (m.observe j t).pkts_recv k ∧ 0 ≤ dgetD (m.observe j t).pkts_miss k := by
  simp only [StreamMetrics.observe]
  repeat' split
  all_goals constructor
  all_goals first
    | exact h1
    | exact h2
    | (simp only [dgetD_aset]; split_ifs with hkk <;> (try subst hkk) <;> omega)

/-- Counters stay nonnegative along any run of observations. -/
theorem runObserve_nonneg (L : List (Json × ℚ)) (m : StreamMetrics) (k : Key)
    (h1 : 0 ≤ dgetD m.pkts_recv k) (h2 : 0 ≤ dgetD m.pkts_miss k) :
    0 ≤ dgetD (runObserve m L).pkts_recv k ∧ 0 ≤ dgetD (runObserve m L).pkts_miss k := by
  induction L generalizing m with
  | nil => exact ⟨h1, h2⟩
  | cons p rest ih =>
    simp only [runObserve, List.foldl] at *
    obtain ⟨g1, g2⟩ := observe_nonneg_step m p.1 p.2 k h1 h2
    exact ih (m.observe p.1 p.2) g1 g2

/-- C7: in every state reachable by observations from the initial state, the
snapshot loss rate of every key lies in the unit interval, equals
miss / (recv + miss) when recv + miss is positive, and equals 0 when
recv + miss is zero. -/
theorem C7_loss_rate (L : List (Json × ℚ)) (k : Key) :
    (0 ≤ ((runObserve StreamMetrics.init L).snapshotPkts k).loss_rate ∧
      ((runObserve StreamMetrics.init L).snapshotPkts k).loss_rate ≤ 1) ∧
    (((runObserve StreamMetrics.init L).snapshotPkts k).recv +
        ((runObserve StreamMetrics.init L).snapshotPkts k).miss > 0 →
      ((runObserve StreamMetrics.init L).snapshotPkts k).loss_rate =
        (((runObserve StreamMetrics.init L).snapshotPkts k).miss : ℚ) /
          ((((runObserve StreamMetrics.init L).snapshotPkts k).recv : ℚ) +
            (((runObserve StreamMetrics.init L).snapshotPkts k).miss : ℚ))) ∧
    (((runObserve StreamMetrics.init L).snapshotPkts k).recv +
        ((runObserve StreamMetrics.init L).snapshotPkts k).miss = 0 →
      ((runObserve StreamMetrics.init L).snapshotPkts k).loss_rate = 0) := by
  have h0 : 0 ≤ dgetD StreamMetrics.init.pkts_recv k ∧
      0 ≤ dgetD StreamMetrics.init.pkts_miss k := by
    simp [StreamMetrics.init, dgetD, alookup]
  obtain ⟨h1, h2⟩ := runObserve_nonneg L StreamMetrics.init k h0.1 h0.2
  simp only [StreamMetrics.snapshotPkts]
  set R := dgetD (runObserve StreamMetrics.init L).pkts_recv k with hR
  set M := dgetD (runObserve StreamMetrics.init L).pkts_miss k with hM
  by_cases hp : R + M > 0
  · rw [if_pos hp]
    have hpos : (0 : ℚ) < (R : ℚ) + (M : ℚ) := by exact_mod_cast hp
    refine ⟨⟨?_, ?_⟩, fun _ => rfl, fun hz => absurd hz (by omega)⟩
    · exact div_nonneg (by exact_mod_cast h2) (le_of_lt hpos)
    · rw [div_le_one hpos]
      exact_mod_cast (by omega : M ≤ R + M)
  · rw [if_neg hp]
    exact ⟨⟨le_refl 0, by norm_num⟩, fun hq => absurd hq hp, fun _ => rfl⟩

/-- C7 witness: the loss rate facts at a concrete run with recv 3 and
miss 2. -/
theorem C7_witness :
    (0 ≤ ((runObserve StreamMetrics.init
        [(seqPkt 0, 0), (seqPkt 1, 1), (seqPkt 4, 2)]).snapshotPkts
          ("Verity", "ppg")).loss_rate ∧
      ((runObserve StreamMetrics.init
        [(seqPkt 0, 0), (seqPkt 1, 1), (seqPkt 4, 2)]).snapshotPkts
          ("Verity", "ppg")).loss_rate ≤ 1) ∧
    ((runObserve StreamMetrics.init
        [(seqPkt 0, 0), (seqPkt 1, 1), (seqPkt 4, 2)]).snapshotPkts
          ("Verity", "ppg")).loss_rate =
      (((runObserve StreamMetrics.init
        [(seqPkt 0, 0), (seqPkt 1, 1), (seqPkt 4, 2)]).snapshotPkts
          ("Verity", "ppg")).miss : ℚ) /
        ((((runObserve StreamMetrics.init
        [(seqPkt 0, 0), (seqPkt 1, 1), (seqPkt 4, 2)]).snapshotPkts
          ("Verity", "ppg")).recv : ℚ) +
          (((runObserve StreamMetrics.init
        [(seqPkt 0, 0), (seqPkt 1, 1), (seqPkt 4, 2)]).snapshotPkts
          ("Verity", "ppg")).miss : ℚ)) :=
  ⟨(C7_loss_rate [(seqPkt 0, 0), (seqPkt 1, 1), (seqPkt 4, 2)] ("Verity", "ppg")).1,
   (C7_loss_rate [(seqPkt 0, 0), (seqPkt 1, 1), (seqPkt 4, 2)] ("Verity", "ppg")).2.1
     (by decide)⟩

/-! C9: mirror stop detection. -/

/-- Folding the mirror scan step from any accumulator prepends the
accumulator to the result of folding from the empty accumulator. -/
theorem foldl_mirrorStep_acc (ts0 : ℚ) (nm : String)
    (samples : List (String × ParseResult)) (acc : List String × List StopRec) :
    samples.foldl (mirrorStep ts0 nm) acc =
      (acc.1 ++ (samples.foldl (mirrorStep ts0 nm) ([], [])).1,
       acc.2 ++ (samples.foldl (mirrorStep ts0 nm) ([], [])).2) := by
  induction samples generalizing acc with
  | nil => simp
  | cons sp rest ih =>
    rw [List.foldl_cons, List.foldl_cons, ih (mirrorStep ts0 nm acc sp),
        ih (mirrorStep ts0 nm ([], []) sp)]
    simp [mirrorStep]

/-- C9 counterexample: a payload that parses as a JSON object whose label is
"baseline_stop" (so neither label nor cmd equals "stop") still gets a stop
record appended: the source tests the label by substring, not equality. -/
theorem C9_counterexample :
    (mirrorScanTexts
        [("\x7b\"label\": \"baseline_stop\"\x7d",
          ParseResult.jobj [("label", JVal.jstr "baseline_stop")])] 1 "PB_MARKERS").2 =
      [{ time_lsl := 1, label := "\x7b\"label\": \"baseline_stop\"\x7d",
         stream := "PB_MARKERS" }] ∧
    lowerStr (pyStr ((pyGet [("label", JVal.jstr "baseline_stop")] "label").getD
      (JVal.jstr ""))) ≠ "stop" ∧
    pyGet [("label", JVal.jstr "baseline_stop")] "cmd" = none := by
  refine ⟨by decide, by decide, rfl⟩

/-- C9 amended: the scan appends every payload to the written batch (the
pull loop continues; detection is record-only), and appends a stop record
exactly when the payload is a JSON object whose lowercased label contains
"stop" as a substring or whose lowercased cmd equals "stop", or, when the
payload is not a JSON object, when the lowercased raw text contains "stop". -/
theorem C9_amended :
    (∀ (samples : List (String × ParseResult)) (ts0 : ℚ) (nm : String),
      (mirrorScanTexts samples ts0 nm).1 = samples.map Prod.fst) ∧
    (∀ (xs ys : List (String × ParseResult)) (ts0 : ℚ) (nm : String),
      mirrorScanTexts (xs ++ ys) ts0 nm =
        ((mirrorScanTexts xs ts0 nm).1 ++ (mirrorScanTexts ys ts0 nm).1,
         (mirrorScanTexts xs ts0 nm).2 ++ (mirrorScanTexts ys ts0 nm).2)) ∧
    (∀ (text : String) (o : Json) (ts0 : ℚ) (nm : String),
      mirrorScanTexts [(text, ParseResult.jobj o)] ts0 nm =
        ([text],
         if strContains (lowerStr (pyStr ((pyGet o "label").getD (JVal.jstr "")))) "stop"
            || lowerStr (pyStr ((pyGet o "cmd").getD (JVal.jstr ""))) == "stop"
         then [{ time_lsl := ts0, label := text, stream := nm }] else [])) ∧
    (∀ (text : String) (ts0 : ℚ) (nm : String),
      mirrorScanTexts [(text, ParseResult.jfail)] ts0 nm =
        ([text], if strContains (lowerStr text) "stop"
                 then [{ time_lsl := ts0, label := text, stream := nm }] else [])) ∧
    (∀ (text : String) (ts0 : ℚ) (nm : String),
      mirrorScanTexts [(text, ParseResult.jother)] ts0 nm =
        ([text], if strContains (lowerStr text) "stop"
                 then [{ time_lsl := ts0, label := text, stream := nm }] else [])) := by
  refine ⟨?_, ?_, ?_, ?_, ?_⟩
  · intro samples ts0 nm
    induction samples with
    | nil => rfl
    | cons sp rest ih =>
      simp only [mirrorScanTexts, List.foldl_cons] at *
      rw [foldl_mirrorStep_acc ts0 nm rest (mirrorStep ts0 nm ([], []) sp)]
      simp [mirrorStep, ih]
  · intro xs ys ts0 nm
    simp only [mirrorScanTexts, List.foldl_append]
    rw [foldl_mirrorStep_acc ts0 nm ys (xs.foldl (mirrorStep ts0 nm) ([], []))]
  · intro text o ts0 nm
    simp [mirrorScanTexts, mirrorStep]
  · intro text ts0 nm
    simp [mirrorScanTexts, mirrorStep]
  · intro text ts0 nm
    simp [mirrorScanTexts, mirrorStep]

/-! C10: an unconsumed object leaves the registry untouched and pushes
nothing. -/

/-- C10: whenever the Polar translator returns false (the object is not
consumed), the outlet registry state is exactly the input state and no
sample or chunk was pushed: every validation check precedes the ensure call
and the push in each branch. -/
theorem C10_unconsumed_no_effect (obj : Json) (host_ts : ℚ)
    (registry : LSLRegistry) (clock : ClockSync)
    (h : (handle obj host_ts registry clock).consumed = false) :
    (handle obj host_ts registry clock).registry = registry ∧
    (handle obj host_ts registry clock).pushes = [] := by
  revert h
  simp only [TranslatorM.handle]
  repeat' split
  all_goals intro h
  all_goals simp_all

/-- C10 witness: an rr object with no ms field is not consumed and has no
effect. -/
theorem C10_witness :
    (handle [("type", JVal.jstr "rr"), ("device", JVal.jstr "H10")] 0
        LSLRegistry.init ClockSync.init).registry = LSLRegistry.init ∧
    (handle [("type", JVal.jstr "rr"), ("device", JVal.jstr "H10")] 0
        LSLRegistry.init ClockSync.init).pushes = [] :=
  C10_unconsumed_no_effect [("type", JVal.jstr "rr"), ("device", JVal.jstr "H10")] 0
    LSLRegistry.init ClockSync.init (by decide)

/-! C5: the RR translation scenario. -/

/-- C5: translating the S1 RR packet at host time 5000.100 with an
uninitialized clock-sync estimator consumes the packet and pushes exactly
one sample on the 2-channel rate-0 outlet PB_RR_H10 with units "ms,te",
timestamp 5000.120 and values 812 and 1000.020; and for any packet whose ms
field is not numeric, handle returns false, pushes nothing and leaves both
states unchanged. -/
theorem C5_rr_translation :
    ((handle rrPkt 5000.100 LSLRegistry.init ClockSync.init).consumed = true ∧
     (handle rrPkt 5000.100 LSLRegistry.init ClockSync.init).pushes =
       [PushEvent.sample rrOutlet [some 812, some 1000.020] 5000.120] ∧
     (handle rrPkt 5000.100 LSLRegistry.init ClockSync.init).registry.outlets =
       [("RR::H10", rrOutlet)]) ∧
    (∀ v : JVal, JsonGuard.f (pyGet (rrPktMs v) "ms") = none →
      handle (rrPktMs v) 5000.100 LSLRegistry.init ClockSync.init =
        ⟨false, LSLRegistry.init, ClockSync.init, []⟩) := by
  constructor
  · have h1 : handle rrPkt 5000.100 LSLRegistry.init ClockSync.init =
        ⟨true,
         { session := "", outlets := [("RR::H10", rrOutlet)] },
         { alpha := 0.05, clamp_s := 1,
           per_device := [("H10",
             { alpha := 0.05, clamp := 1, inited := true, offset := 5000.100 - 1000 })] },
         [PushEvent.sample rrOutlet [some ((812 : ℤ) : ℚ), some 1000.020]
            (1000.020 + (5000.100 - 1000))]⟩ := by rfl
    rw [h1]
    refine ⟨rfl, ?_, rfl⟩
    norm_num
  · intro v hv
    cases v with
    | jint z => exact absurd hv (by simp [JsonGuard.f, pyGet, rrPktMs])
    | jnum q => exact absurd hv (by simp [JsonGuard.f, pyGet, rrPktMs])
    | jbool b => exact absurd hv (by simp [JsonGuard.f, pyGet, rrPktMs])
    | jstr s => rfl
    | jarr xs => rfl
    | jnull => rfl

/-- C5 witness: a packet whose ms field is the string "x" is dropped with no
push. -/
theorem C5_witness :
    handle (rrPktMs (JVal.jstr "x")) 5000.100 LSLRegistry.init ClockSync.init =
      ⟨false, LSLRegistry.init, ClockSync.init, []⟩ :=
  C5_rr_translation.2 (JVal.jstr "x") rfl

end PhysioBridge
